import Mathlib

/-!
Verification development for the Theron RSQ Bot terminal chat client
(`theron_rsq_bot.py`).  The program is shallowly embedded: JSON values read
from the configuration file become an inductive `JVal`, the conversation
loop becomes a pure `step` function over an explicit `LoopState`, and the
external world (terminal input, the OpenAI network call, the log-file
write) is supplied as oracle data inside each `InputEvent`.  Library calls
of the Python standard library (`json.load`, `time.strftime`, file IO) are
modelled by parameters or by small faithful functions, as noted at each
definition.
-/

namespace TheronRsqBot

/-- A JSON value as produced by `json.load`.  Only the scalar shapes matter
to this program; numbers are modelled exactly by rationals (the program
never computes with them, it only passes them through). -/
inductive JVal where
  | jstr (s : String)
  | jnum (q : ℚ)
  | jint (n : ℤ)
  | jbool (b : Bool)
  | jnull
deriving DecidableEq

/-- The configuration object: a JSON object, i.e. a finite key-value map.
JSON parsing yields unique keys; lookup takes the first binding. -/
abbrev Config := List (String × JVal)

/-- `c.get(k)` of a Python dict, returning `none` when the key is absent. -/
def dictFind (c : Config) (k : String) : Option JVal :=
  (c.find? (fun p => p.1 == k)).map (fun p => p.2)

/-- `c.get(k, d)` of a Python dict: the stored value, or the default. -/
def dictGet (c : Config) (k : String) (d : JVal) : JVal :=
  (dictFind c k).getD d

/-- The whitespace set of Python `str.strip()` (ASCII part). -/
def isPyWhitespace (c : Char) : Bool :=
  c = ' ' || c = '\t' || c = '\n' || c = '\r' || c = '\x0b' || c = '\x0c'

/-- Python `s.strip()`: remove leading and trailing whitespace. -/
def pyStrip (s : String) : String :=
  String.mk (((s.data.dropWhile isPyWhitespace).reverse.dropWhile
      isPyWhitespace).reverse)

/-- Python `s.lower()` (ASCII part, which is all the loop compares). -/
def pyLower (s : String) : String :=
  String.mk (s.data.map Char.toLower)

/-- Message roles: the program only ever writes these three strings. -/
inductive Role where
  | system
  | user
  | assistant
deriving DecidableEq

/-- One chat message `{"role": r, "content": c}`.  The content is a `JVal`
because `build_message_system` stores whatever the config holds under
`system_prompt`; user and assistant contents are always strings. -/
structure Message where
  role : Role
  content : JVal
deriving DecidableEq

/-- `build_message_system` (line 37): the system message from the config. -/
def build_message_system (config : Config) : Message :=
  ⟨Role.system, dictGet config "system_prompt" (JVal.jstr "")⟩

/-- `config.get("model", "gpt-4o-mini")` (line 62). -/
def configModel (config : Config) : JVal :=
  dictGet config "model" (JVal.jstr "gpt-4o-mini")

/-- `config.get("temperature", 0.2)` (line 92). -/
def configTemperature (config : Config) : JVal :=
  dictGet config "temperature" (JVal.jnum (0.2 : ℚ))

/-- `config.get("max_tokens", 800)` (line 93). -/
def configMaxTokens (config : Config) : JVal :=
  dictGet config "max_tokens" (JVal.jint 800)

deriving instance DecidableEq for Except

/-- Result of one `chat_with_openai` call: the reply or the raised error
message, together with whether the outbound network request was made. -/
structure ChatCallResult where
  result : Except String String
  networkAttempted : Bool
deriving DecidableEq

/-- `chat_with_openai` (lines 40-59).  `apiKey` is `os.getenv("OPENAI_API_KEY")`
(`none` when unset); `net` is the oracle for the remote completion service:
`Except.error e` when the request raises, `Except.ok raw` when it returns a
response whose extracted content is `raw`.  On success the code returns
`content.strip()`.  The message list and sampling parameters are forwarded
to the service and do not influence the modelled outcome. -/
def chat_with_openai (apiKey : Option String) (net : Except String String)
    (messages : List Message) (model : JVal) (temperature : JVal)
    (max_tokens : JVal) : ChatCallResult :=
  if apiKey.getD "" = "" then
    ⟨Except.error "OPENAI_API_KEY environment variable not set. See README.md",
      false⟩
  else
    match net with
    | Except.error e => ⟨Except.error e, true⟩
    | Except.ok raw => ⟨Except.ok (pyStrip raw), true⟩

/-- The arguments of one invocation of the Completion Client, as recorded
by the loop state (lines 91-93). -/
structure ChatCall where
  messages : List Message
  model : JVal
  temperature : JVal
  max_tokens : JVal
deriving DecidableEq

/-- The observable state of `terminal_chat_loop`: the conversation message
list, the entries handed to `save_history`, the strings printed to the
terminal, and the Completion Client invocations made so far. -/
structure LoopState where
  messages : List Message
  logs : List String
  output : List String
  calls : List ChatCall
deriving DecidableEq

/-- One iteration's worth of external input: either an interrupt /
end-of-stream while reading (`KeyboardInterrupt`, `EOFError`), or a line of
text together with the completion-service oracle for this turn and whether
the log-file append would succeed (`writeOk = false` models an `OSError`
raised inside `save_history`). -/
inductive InputEvent where
  | interrupt
  | line (s : String) (net : Except String String) (writeOk : Bool)
deriving DecidableEq

/-- Outcome of one loop iteration: continue (with a flag telling whether
this was a successful turn), end the session normally, or crash with an
uncaught exception escaping the loop. -/
inductive StepResult where
  | cont (st : LoopState) (success : Bool)
  | ended (st : LoopState)
  | crashed (st : LoopState)
deriving DecidableEq

/-- The loop state carried by a step result. -/
def StepResult.state : StepResult → LoopState
  | StepResult.cont st _ => st
  | StepResult.ended st => st
  | StepResult.crashed st => st

/-- The state of `terminal_chat_loop` just before the first iteration
(lines 61-71): the banner is printed and the message list holds exactly
the system message. -/
def initState (config : Config) : LoopState :=
  { messages := [build_message_system config]
    logs := []
    output := ["",
      "Theron RSQ Bot — calm & professional (type \x27exit\x27 or \x27quit\x27 to end)",
      "Disclaimer: This bot provides informational responses and is not a substitute for professional medical advice.",
      ""]
    calls := [] }

/-- One iteration of the `while True` loop (lines 73-105).
`input(...).strip()` gives the trimmed line; empty lines are no-ops;
`exit` / `quit` (case-insensitive) end the session; otherwise the user
message is appended, the Completion Client is called, and on failure the
appended user message is popped while on success the assistant reply is
appended, printed and logged.  `save_history` sits outside the
`try`/`except`, so a failing log write escapes the loop (`crashed`). -/
def step (config : Config) (apiKey : Option String) (st : LoopState) :
    InputEvent → StepResult
  | InputEvent.interrupt =>
      StepResult.ended { st with output := st.output ++ ["\nExiting."] }
  | InputEvent.line s net w =>
      let user_input := pyStrip s
      if user_input = "" then
        StepResult.cont st false
      else if pyLower user_input = "exit" ∨ pyLower user_input = "quit" then
        StepResult.ended { st with output := st.output ++ ["Goodbye."] }
      else
        let msgs1 := st.messages ++ [⟨Role.user, JVal.jstr user_input⟩]
        let call : ChatCall :=
          ⟨msgs1, configModel config, configTemperature config,
            configMaxTokens config⟩
        let r := chat_with_openai apiKey net msgs1 call.model
          call.temperature call.max_tokens
        match r.result with
        | Except.error e =>
            StepResult.cont
              { st with
                messages := msgs1.dropLast
                output := st.output ++ ["[Error] API call failed: " ++ e]
                calls := st.calls ++ [call] } false
        | Except.ok assistant_reply =>
            let msgs2 := msgs1 ++ [⟨Role.assistant, JVal.jstr assistant_reply⟩]
            let printed :=
              st.output ++ ["\nTheron RSQ Bot:\n" ++ assistant_reply ++ "\n"]
            if w then
              StepResult.cont
                { messages := msgs2
                  logs := st.logs ++
                    ["User: " ++ user_input ++ "\n\nBot: " ++ assistant_reply]
                  output := printed
                  calls := st.calls ++ [call] } true
            else
              StepResult.crashed
                { st with
                  messages := msgs2
                  output := printed
                  calls := st.calls ++ [call] }

/-- Run the loop over a list of input events.  Returns the final state, the
number of successful turns, and whether the run ended in an uncaught
exception.  The run stops at an exit command, an interrupt, a crash, or the
end of the event list. -/
def run (config : Config) (apiKey : Option String) :
    LoopState → List InputEvent → LoopState × Nat × Bool
  | st, [] => (st, 0, false)
  | st, ev :: evs =>
      match step config apiKey st ev with
      | StepResult.cont st' succ =>
          let rest := run config apiKey st' evs
          (rest.1, (if succ then 1 else 0) + rest.2.1, rest.2.2)
      | StepResult.ended st' => (st', 0, false)
      | StepResult.crashed st' => (st', 0, true)

/-- The failure conditions of `load_config` (lines 26-30):
`FileNotFoundError` and `json.JSONDecodeError`. -/
inductive ConfigError where
  | missingFile
  | malformedData
deriving DecidableEq

/-- `load_config` (lines 26-30).  `fs` models the filesystem
(`os.path.exists` + `open(...).read()`: `none` when the path does not
exist); `parse` models `json.load` (`none` when the text is not valid
JSON).  The parsed object is returned unchanged: no defaults here. -/
def load_config (fs : String → Option String)
    (parse : String → Option Config) (path : String) :
    Except ConfigError Config :=
  match fs path with
  | none => Except.error ConfigError.missingFile
  | some content =>
      match parse content with
      | none => Except.error ConfigError.malformedData
      | some c => Except.ok c

/-- `main` (lines 107-109): load the config from `config.json`, then enter
the conversation loop.  A loader failure propagates and the loop is never
entered; success returns the loop run over the supplied events. -/
def main (fs : String → Option String) (parse : String → Option Config)
    (apiKey : Option String) (events : List InputEvent) :
    Except ConfigError (LoopState × Nat × Bool) :=
  match load_config fs parse "config.json" with
  | Except.error e => Except.error e
  | Except.ok config =>
      Except.ok (run config apiKey (initState config) events)

/-- A broken-down wall-clock time, as `time.localtime()` yields it. -/
structure Tm where
  year : Nat
  month : Nat
  day : Nat
  hour : Nat
  minute : Nat
  second : Nat
deriving DecidableEq

/-- A two-digit zero-padded decimal field (`%m`, `%d`, `%H`, `%M`, `%S`). -/
def pad2 (n : Nat) : String :=
  String.mk [Nat.digitChar (n / 10 % 10), Nat.digitChar (n % 10)]

/-- A four-digit zero-padded decimal field (`%Y` for in-range years). -/
def pad4 (n : Nat) : String :=
  String.mk [Nat.digitChar (n / 1000 % 10), Nat.digitChar (n / 100 % 10),
    Nat.digitChar (n / 10 % 10), Nat.digitChar (n % 10)]

/-- `time.strftime("%Y-%m-%d %H:%M:%S")` (line 33) on a broken-down time. -/
def strftimeYmdHMS (t : Tm) : String :=
  pad4 t.year ++ "-" ++ pad2 t.month ++ "-" ++ pad2 t.day ++ " " ++
    pad2 t.hour ++ ":" ++ pad2 t.minute ++ ":" ++ pad2 t.second

/-- `save_history` (lines 32-35): append one formatted block to the log
file.  `old` is the file's prior content, `none` when the file does not yet
exist (mode `"a"` then creates it empty); the result is the file content
after the write. -/
def save_history (ts : String) (entry : String) (old : Option String) :
    String :=
  old.getD "" ++ ("---\n" ++ ("**" ++ ts ++ "**") ++ "\n" ++ "\n" ++
    entry ++ "\n" ++ "\n")

/-- Whether a step result is an uncaught exception escaping the loop. -/
def StepResult.isCrashed : StepResult → Bool
  | StepResult.crashed _ => true
  | _ => false

/-- How many messages of a list carry the system role. -/
def sysCount (l : List Message) : Nat :=
  (l.filter (fun m => m.role == Role.system)).length

/-- Checks that a string is exactly of shape `YYYY-MM-DD HH:MM:SS`:
nineteen characters, decimal digits in the date and time positions and the
literal separators between them. -/
def tsFormatOk (s : String) : Bool :=
  match s.data with
  | [y1, y2, y3, y4, c1, m1, m2, c2, d1, d2, c3, h1, h2, c4, n1, n2, c5,
      s1, s2] =>
      y1.isDigit && y2.isDigit && y3.isDigit && y4.isDigit && c1 = '-' &&
        m1.isDigit && m2.isDigit && c2 = '-' && d1.isDigit && d2.isDigit &&
        c3 = ' ' && h1.isDigit && h2.isDigit && c4 = ':' && n1.isDigit &&
        n2.isDigit && c5 = ':' && s1.isDigit && s2.isDigit
  | _ => false

/-! ## Helper lemmas -/

/-- The decimal digit character of any `n % 10` is a digit. -/
theorem digitChar_mod_isDigit (n : Nat) :
    (Nat.digitChar (n % 10)).isDigit = true := by
  have hk : n % 10 < 10 := Nat.mod_lt _ (by norm_num)
  set k := n % 10 with hkdef
  interval_cases k <;> decide

/-- A successful turn appends exactly a user message followed by an
assistant message, both with string contents. -/
theorem step_cont_true_shape (config : Config) (apiKey : Option String)
    (st : LoopState) (ev : InputEvent) (st' : LoopState)
    (h : step config apiKey st ev = StepResult.cont st' true) :
    ∃ u r, st'.messages = st.messages ++
      [Message.mk Role.user (JVal.jstr u),
        Message.mk Role.assistant (JVal.jstr r)] := by
  cases ev with
  | interrupt => simp [step] at h
  | line s net w =>
    simp only [step] at h
    split at h
    · simp at h
    · split at h
      · simp at h
      · split at h
        · simp at h
        · split at h
          · rw [StepResult.cont.injEq] at h
            obtain ⟨rfl, -⟩ := h
            rename_i raw heq hw
            exact ⟨pyStrip s, raw, by simp⟩
          · simp at h

/-- A non-successful continuing turn (blank line or failed call) leaves the
conversation message list unchanged. -/
theorem step_cont_false_shape (config : Config) (apiKey : Option String)
    (st : LoopState) (ev : InputEvent) (st' : LoopState)
    (h : step config apiKey st ev = StepResult.cont st' false) :
    st'.messages = st.messages := by
  cases ev with
  | interrupt => simp [step] at h
  | line s net w =>
    simp only [step] at h
    split at h
    · rw [StepResult.cont.injEq] at h
      rw [← h.1]
    · split at h
      · simp at h
      · split at h
        · rw [StepResult.cont.injEq] at h
          rw [← h.1]
          simp
        · split at h
          · simp at h
          · simp at h

/-- Ending the session (exit command or interrupt) leaves the conversation
message list unchanged. -/
theorem step_ended_shape (config : Config) (apiKey : Option String)
    (st : LoopState) (ev : InputEvent) (st' : LoopState)
    (h : step config apiKey st ev = StepResult.ended st') :
    st'.messages = st.messages := by
  cases ev with
  | interrupt =>
    simp only [step] at h
    rw [StepResult.ended.injEq] at h
    rw [← h]
  | line s net w =>
    simp only [step] at h
    split at h
    · simp at h
    · split at h
      · rw [StepResult.ended.injEq] at h
        rw [← h]
      · split at h
        · simp at h
        · split at h
          · simp at h
          · simp at h

/-- The only way a loop iteration crashes is a line whose log write fails:
completion-call failures are always caught. -/
theorem step_crashed_shape (config : Config) (apiKey : Option String)
    (st : LoopState) (ev : InputEvent) (st' : LoopState)
    (h : step config apiKey st ev = StepResult.crashed st') :
    ∃ s2 net2, ev = InputEvent.line s2 net2 false := by
  cases ev with
  | interrupt => simp [step] at h
  | line s net w =>
    refine ⟨s, net, ?_⟩
    simp only [step] at h
    split at h
    · simp at h
    · split at h
      · simp at h
      · split at h
        · simp at h
        · split at h
          · simp at h
          · rename_i hw
            simp [Bool.not_eq_true] at hw
            rw [hw]

/-- Core invariant of the conversation loop: over any crash-free run, the
message list grows by exactly two entries per successful turn, keeps its
head, and keeps its count of system-role messages. -/
theorem run_no_crash_inv (config : Config) (apiKey : Option String)
    (evs : List InputEvent) :
    ∀ st : LoopState, (run config apiKey st evs).2.2 = false →
      (run config apiKey st evs).1.messages.length =
          st.messages.length + 2 * (run config apiKey st evs).2.1 ∧
      (st.messages ≠ [] →
        (run config apiKey st evs).1.messages.head? = st.messages.head?) ∧
      sysCount (run config apiKey st evs).1.messages =
        sysCount st.messages := by
  induction evs with
  | nil => intro st h; simp [run]
  | cons ev evs ih =>
    intro st h
    cases hstep : step config apiKey st ev with
    | cont st2 succ =>
      have hrun : run config apiKey st (ev :: evs) =
          ((run config apiKey st2 evs).1,
            (if succ then 1 else 0) + (run config apiKey st2 evs).2.1,
            (run config apiKey st2 evs).2.2) := by
        simp [run, hstep]
      rw [hrun] at h ⊢
      simp only at h ⊢
      obtain ⟨ihlen, ihhead, ihsys⟩ := ih st2 h
      cases succ with
      | true =>
        obtain ⟨u, r, hmsg⟩ := step_cont_true_shape config apiKey st ev st2 hstep
        refine ⟨?_, ?_, ?_⟩
        · rw [ihlen, hmsg]
          simp
          ring
        · intro hne
          rw [ihhead (by rw [hmsg]; simp)]
          rw [hmsg]
          cases hm : st.messages with
          | nil => exact absurd hm hne
          | cons m ms => simp
        · rw [ihsys, hmsg]
          simp [sysCount]
      | false =>
        have hmsg := step_cont_false_shape config apiKey st ev st2 hstep
        refine ⟨?_, ?_, ?_⟩
        · rw [ihlen, hmsg]
          simp
        · intro hne
          rw [ihhead (by rw [hmsg]; exact hne), hmsg]
        · rw [ihsys, hmsg]
    | ended st2 =>
      have hrun : run config apiKey st (ev :: evs) = (st2, 0, false) := by
        simp [run, hstep]
      rw [hrun]
      have hmsg := step_ended_shape config apiKey st ev st2 hstep
      simp [hmsg]
    | crashed st2 =>
      have hrun : run config apiKey st (ev :: evs) = (st2, 0, true) := by
        simp [run, hstep]
      rw [hrun] at h
      simp at h

/-! ## Claim theorems -/

/-- Claim C1: when the Completion Client call of a turn fails, the
conversation state after the turn is identical, element for element, to
its state before the turn: the just-appended user message is removed, no
log entry is written, and the loop continues awaiting input. -/
theorem C1_failed_call_rollback (config : Config) (apiKey : Option String)
    (st : LoopState) (s : String) (net : Except String String) (w : Bool)
    (e : String) (hne : pyStrip s ≠ "")
    (hex : pyLower (pyStrip s) ≠ "exit") (hq : pyLower (pyStrip s) ≠ "quit")
    (hfail : (chat_with_openai apiKey net
        (st.messages ++ [Message.mk Role.user (JVal.jstr (pyStrip s))])
        (configModel config) (configTemperature config)
        (configMaxTokens config)).result = Except.error e) :
    ∃ st', step config apiKey st (InputEvent.line s net w) =
        StepResult.cont st' false ∧
      st'.messages = st.messages ∧ st'.logs = st.logs := by
  have hstep : step config apiKey st (InputEvent.line s net w) =
      StepResult.cont { st with
        messages := (st.messages ++
          [Message.mk Role.user (JVal.jstr (pyStrip s))]).dropLast
        output := st.output ++ ["[Error] API call failed: " ++ e]
        calls := st.calls ++ [ChatCall.mk
          (st.messages ++ [Message.mk Role.user (JVal.jstr (pyStrip s))])
          (configModel config) (configTemperature config)
          (configMaxTokens config)] }
      false := by
    simp [step, hne, hex, hq, hfail]
  exact ⟨_, hstep, by simp, rfl⟩

/-- Witness for C1 at a concrete failing turn. -/
theorem C1_failed_call_rollback_witness :
    pyStrip "hi" ≠ "" ∧ pyLower (pyStrip "hi") ≠ "exit" ∧
      pyLower (pyStrip "hi") ≠ "quit" ∧
      (chat_with_openai (some "k") (Except.error "boom")
        ((initState []).messages ++
          [Message.mk Role.user (JVal.jstr (pyStrip "hi"))])
        (configModel []) (configTemperature [])
        (configMaxTokens [])).result = Except.error "boom" ∧
      (∃ st', step [] (some "k") (initState [])
          (InputEvent.line "hi" (Except.error "boom") true) =
          StepResult.cont st' false ∧
        st'.messages = (initState []).messages ∧
        st'.logs = (initState []).logs) :=
  ⟨by decide, by decide, by decide, rfl,
    C1_failed_call_rollback [] (some "k") (initState []) "hi"
      (Except.error "boom") true "boom" (by decide) (by decide) (by decide)
      rfl⟩

/-- Claim C2: over any crash-free execution with `k` successful turns, the
conversation state has length exactly `1 + 2 * k`, its first element is
the original system message built from the configuration, that system
message is never removed or duplicated (exactly one system-role message is
ever present), and each successful turn appends exactly a user message
followed by an assistant message. -/
theorem C2_conversation_state_invariant (config : Config)
    (apiKey : Option String) (events : List InputEvent)
    (h : (run config apiKey (initState config) events).2.2 = false) :
    (run config apiKey (initState config) events).1.messages.length =
        1 + 2 * (run config apiKey (initState config) events).2.1 ∧
      (run config apiKey (initState config) events).1.messages.head? =
        some (build_message_system config) ∧
      sysCount (run config apiKey (initState config) events).1.messages = 1 ∧
      (∀ (st : LoopState) (ev : InputEvent) (st2 : LoopState),
        step config apiKey st ev = StepResult.cont st2 true →
        ∃ u r, st2.messages = st.messages ++
          [Message.mk Role.user (JVal.jstr u),
            Message.mk Role.assistant (JVal.jstr r)]) := by
  obtain ⟨hlen, hhead, hsys⟩ :=
    run_no_crash_inv config apiKey events (initState config) h
  refine ⟨?_, ?_, ?_, ?_⟩
  · rw [hlen]
    simp [initState]
  · rw [hhead (by simp [initState])]
    simp [initState]
  · rw [hsys]
    simp [sysCount, initState, build_message_system]
  · intro st ev st2 hstep
    exact step_cont_true_shape config apiKey st ev st2 hstep

/-- Witness for C2 on a concrete one-turn run. -/
theorem C2_conversation_state_invariant_witness :
    (run [] (some "k") (initState [])
        [InputEvent.line "hi" (Except.ok "yo") true]).2.2 = false ∧
      ((run [] (some "k") (initState [])
          [InputEvent.line "hi" (Except.ok "yo") true]).1.messages.length =
        1 + 2 * (run [] (some "k") (initState [])
          [InputEvent.line "hi" (Except.ok "yo") true]).2.1 ∧
      (run [] (some "k") (initState [])
          [InputEvent.line "hi" (Except.ok "yo") true]).1.messages.head? =
        some (build_message_system []) ∧
      sysCount (run [] (some "k") (initState [])
          [InputEvent.line "hi" (Except.ok "yo") true]).1.messages = 1 ∧
      (∀ (st : LoopState) (ev : InputEvent) (st2 : LoopState),
        step [] (some "k") st ev = StepResult.cont st2 true →
        ∃ u r, st2.messages = st.messages ++
          [Message.mk Role.user (JVal.jstr u),
            Message.mk Role.assistant (JVal.jstr r)])) :=
  ⟨rfl, C2_conversation_state_invariant [] (some "k")
    [InputEvent.line "hi" (Except.ok "yo") true] rfl⟩

/-- Claim C3 counterexample: not every error arising during a turn is
caught at the loop level.  At this concrete input the Completion Client
call succeeds but the log write inside `save_history` raises, and the
exception escapes the loop: the session crashes. -/
theorem C3_counterexample_uncaught_log_write :
    StepResult.isCrashed (step [] (some "k") (initState [])
      (InputEvent.line "hi" (Except.ok "yo") false)) = true := rfl

/-- Claim C3 as amended: every Completion Client failure during a turn is
caught at the loop level and never escapes it.  The loop prints the
diagnostic `[Error] API call failed: ...` and continues awaiting input;
the only per-turn error that can escape the loop is a failure of the
log-file write, which sits outside the `try`/`except`. -/
theorem C3_completion_errors_caught (config : Config)
    (apiKey : Option String) (st : LoopState) (s : String)
    (net : Except String String) (w : Bool) (e : String)
    (hne : pyStrip s ≠ "")
    (hex : pyLower (pyStrip s) ≠ "exit") (hq : pyLower (pyStrip s) ≠ "quit")
    (hfail : (chat_with_openai apiKey net
        (st.messages ++ [Message.mk Role.user (JVal.jstr (pyStrip s))])
        (configModel config) (configTemperature config)
        (configMaxTokens config)).result = Except.error e) :
    step config apiKey st (InputEvent.line s net w) =
      StepResult.cont { st with
        messages := (st.messages ++
          [Message.mk Role.user (JVal.jstr (pyStrip s))]).dropLast
        output := st.output ++ ["[Error] API call failed: " ++ e]
        calls := st.calls ++ [ChatCall.mk
          (st.messages ++ [Message.mk Role.user (JVal.jstr (pyStrip s))])
          (configModel config) (configTemperature config)
          (configMaxTokens config)] }
      false ∧
    (∀ (ev : InputEvent) (st2 : LoopState),
      step config apiKey st ev = StepResult.crashed st2 →
      ∃ s2 net2, ev = InputEvent.line s2 net2 false) := by
  constructor
  · simp [step, hne, hex, hq, hfail]
  · intro ev st2 hstep
    exact step_crashed_shape config apiKey st ev st2 hstep

/-- Witness for C3 as amended, at a concrete failing call. -/
theorem C3_completion_errors_caught_witness :
    pyStrip "hi" ≠ "" ∧ pyLower (pyStrip "hi") ≠ "exit" ∧
      pyLower (pyStrip "hi") ≠ "quit" ∧
      (chat_with_openai (some "k") (Except.error "timeout")
        ((initState []).messages ++
          [Message.mk Role.user (JVal.jstr (pyStrip "hi"))])
        (configModel []) (configTemperature [])
        (configMaxTokens [])).result = Except.error "timeout" ∧
      (step [] (some "k") (initState [])
          (InputEvent.line "hi" (Except.error "timeout") true) =
        StepResult.cont { initState [] with
          messages := ((initState []).messages ++
            [Message.mk Role.user (JVal.jstr (pyStrip "hi"))]).dropLast
          output := (initState []).output ++
            ["[Error] API call failed: " ++ "timeout"]
          calls := (initState []).calls ++ [ChatCall.mk
            ((initState []).messages ++
              [Message.mk Role.user (JVal.jstr (pyStrip "hi"))])
            (configModel []) (configTemperature []) (configMaxTokens [])] }
        false ∧
      (∀ (ev : InputEvent) (st2 : LoopState),
        step [] (some "k") (initState []) ev = StepResult.crashed st2 →
        ∃ s2 net2, ev = InputEvent.line s2 net2 false)) :=
  ⟨by decide, by decide, by decide, rfl,
    C3_completion_errors_caught [] (some "k") (initState []) "hi"
      (Except.error "timeout") true "timeout" (by decide) (by decide)
      (by decide) rfl⟩

/-- Claim C4: a line that is empty after trimming is a complete no-op: the
loop state (messages, logs, output, recorded calls) is unchanged and the
loop keeps awaiting input. -/
theorem C4_blank_input_noop (config : Config) (apiKey : Option String)
    (st : LoopState) (s : String) (net : Except String String) (w : Bool)
    (h : pyStrip s = "") :
    step config apiKey st (InputEvent.line s net w) =
      StepResult.cont st false := by
  simp [step, h]

/-- Witness for C4 at a whitespace-only line. -/
theorem C4_blank_input_noop_witness :
    pyStrip "   " = "" ∧
      step [] (some "k") (initState [])
          (InputEvent.line "   " (Except.ok "y") true) =
        StepResult.cont (initState []) false :=
  ⟨by decide, C4_blank_input_noop [] (some "k") (initState []) "   "
    (Except.ok "y") true (by decide)⟩

/-- Claim C5: a line whose trimmed text case-insensitively equals `exit`
or `quit` ends the loop, printing `Goodbye.`, with no message appended, no
log entry written and no Completion Client invocation recorded. -/
theorem C5_exit_command_ends_loop (config : Config) (apiKey : Option String)
    (st : LoopState) (s : String) (net : Except String String) (w : Bool)
    (h : pyLower (pyStrip s) = "exit" ∨ pyLower (pyStrip s) = "quit") :
    step config apiKey st (InputEvent.line s net w) =
      StepResult.ended { st with output := st.output ++ ["Goodbye."] } := by
  have hne : pyStrip s ≠ "" := by
    intro h0
    rw [h0] at h
    rcases h with h | h <;> exact absurd h (by decide)
  rcases h with h | h <;> simp [step, hne, h]

/-- Witness for C5 at the line `EXIT`. -/
theorem C5_exit_command_ends_loop_witness :
    (pyLower (pyStrip "EXIT") = "exit" ∨ pyLower (pyStrip "EXIT") = "quit") ∧
      step [] (some "k") (initState [])
          (InputEvent.line "EXIT" (Except.ok "y") true) =
        StepResult.ended { initState [] with
          output := (initState []).output ++ ["Goodbye."] } :=
  ⟨Or.inl (by decide), C5_exit_command_ends_loop [] (some "k") (initState [])
    "EXIT" (Except.ok "y") true (Or.inl (by decide))⟩

/-- Claim C6: `load_config` fails with a missing-file condition when the
path does not exist (and then `main` never enters the conversation loop),
fails with a malformed-data condition when the content does not parse, and
substitutes no defaults: a successful load returns exactly the parsed
object. -/
theorem C6_load_config_error_conditions :
    (∀ (fs : String → Option String) (parse : String → Option Config)
        (path : String), fs path = none →
        load_config fs parse path = Except.error ConfigError.missingFile) ∧
    (∀ (fs : String → Option String) (parse : String → Option Config)
        (apiKey : Option String) (events : List InputEvent),
        fs "config.json" = none →
        main fs parse apiKey events =
          Except.error ConfigError.missingFile) ∧
    (∀ (fs : String → Option String) (parse : String → Option Config)
        (path content : String), fs path = some content →
        parse content = none →
        load_config fs parse path = Except.error ConfigError.malformedData) ∧
    (∀ (fs : String → Option String) (parse : String → Option Config)
        (path content : String) (c : Config), fs path = some content →
        load_config fs parse path = Except.ok c → parse content = some c) := by
  refine ⟨?_, ?_, ?_, ?_⟩
  · intro fs parse path h
    simp [load_config, h]
  · intro fs parse apiKey events h
    simp [main, load_config, h]
  · intro fs parse path content h hp
    simp [load_config, h, hp]
  · intro fs parse path content c h hc
    simp only [load_config, h] at hc
    cases hp : parse content with
    | none => rw [hp] at hc; simp at hc
    | some c2 => rw [hp] at hc; simp at hc; rw [hc]

/-- Witness for C6 at concrete filesystems and parsers. -/
theorem C6_load_config_error_conditions_witness :
    load_config (fun _ => none) (fun _ => none) "config.json" =
        Except.error ConfigError.missingFile ∧
      main (fun _ => none) (fun _ => none) none [] =
        Except.error ConfigError.missingFile ∧
      load_config (fun _ => some "not json") (fun _ => none) "config.json" =
        Except.error ConfigError.malformedData ∧
      (fun _ : String => some ([] : Config)) "{}" = some ([] : Config) :=
  ⟨C6_load_config_error_conditions.1 (fun _ => none) (fun _ => none)
      "config.json" rfl,
    C6_load_config_error_conditions.2.1 (fun _ => none) (fun _ => none)
      none [] rfl,
    C6_load_config_error_conditions.2.2.1 (fun _ => some "not json")
      (fun _ => none) "config.json" "not json" rfl rfl,
    C6_load_config_error_conditions.2.2.2 (fun _ => some "{}")
      (fun _ => some []) "config.json" "{}" [] rfl rfl⟩

/-- Claim C7: when no non-empty credential is resolvable from the process
environment, `chat_with_openai` fails with the unauthenticated error
before any network attempt is made, whatever the service would have
answered. -/
theorem C7_missing_credential_unauthenticated (apiKey : Option String)
    (net : Except String String) (messages : List Message)
    (model temperature max_tokens : JVal)
    (h : apiKey = none ∨ apiKey = some "") :
    chat_with_openai apiKey net messages model temperature max_tokens =
      ⟨Except.error
        "OPENAI_API_KEY environment variable not set. See README.md",
        false⟩ := by
  rcases h with h | h <;> subst h <;> simp [chat_with_openai]

/-- Witness for C7 with the variable unset. -/
theorem C7_missing_credential_unauthenticated_witness :
    ((none : Option String) = none ∨ (none : Option String) = some "") ∧
      chat_with_openai none (Except.ok "hi") [] JVal.jnull JVal.jnull
          JVal.jnull =
        ⟨Except.error
          "OPENAI_API_KEY environment variable not set. See README.md",
          false⟩ :=
  ⟨Or.inl rfl, C7_missing_credential_unauthenticated none (Except.ok "hi")
    [] JVal.jnull JVal.jnull JVal.jnull (Or.inl rfl)⟩

/-- Claim C8: the values the loop reads from the configuration exactly
match the keys present, with the documented defaults for absent keys
(`model` to `gpt-4o-mini`, `temperature` to `0.2`, `max_tokens` to `800`,
`system_prompt` to empty text), and unknown keys are ignored: the four
reads depend only on those four keys. -/
theorem C8_config_defaults :
    (∀ (config : Config) (v : JVal), dictFind config "model" = some v →
      configModel config = v) ∧
    (∀ config : Config, dictFind config "model" = none →
      configModel config = JVal.jstr "gpt-4o-mini") ∧
    (∀ (config : Config) (v : JVal),
      dictFind config "temperature" = some v →
      configTemperature config = v) ∧
    (∀ config : Config, dictFind config "temperature" = none →
      configTemperature config = JVal.jnum (0.2 : ℚ)) ∧
    (∀ (config : Config) (v : JVal),
      dictFind config "max_tokens" = some v → configMaxTokens config = v) ∧
    (∀ config : Config, dictFind config "max_tokens" = none →
      configMaxTokens config = JVal.jint 800) ∧
    (∀ (config : Config) (v : JVal),
      dictFind config "system_prompt" = some v →
      build_message_system config = Message.mk Role.system v) ∧
    (∀ config : Config, dictFind config "system_prompt" = none →
      build_message_system config = Message.mk Role.system (JVal.jstr "")) ∧
    (∀ c₁ c₂ : Config,
      dictFind c₁ "model" = dictFind c₂ "model" →
      dictFind c₁ "temperature" = dictFind c₂ "temperature" →
      dictFind c₁ "max_tokens" = dictFind c₂ "max_tokens" →
      dictFind c₁ "system_prompt" = dictFind c₂ "system_prompt" →
      configModel c₁ = configModel c₂ ∧
        configTemperature c₁ = configTemperature c₂ ∧
        configMaxTokens c₁ = configMaxTokens c₂ ∧
        build_message_system c₁ = build_message_system c₂) := by
  refine ⟨?_, ?_, ?_, ?_, ?_, ?_, ?_, ?_, ?_⟩
  · intro config v h
    simp [configModel, dictGet, h]
  · intro config h
    simp [configModel, dictGet, h]
  · intro config v h
    simp [configTemperature, dictGet, h]
  · intro config h
    simp [configTemperature, dictGet, h]
  · intro config v h
    simp [configMaxTokens, dictGet, h]
  · intro config h
    simp [configMaxTokens, dictGet, h]
  · intro config v h
    simp [build_message_system, dictGet, h]
  · intro config h
    simp [build_message_system, dictGet, h]
  · intro c₁ c₂ h1 h2 h3 h4
    exact ⟨by simp [configModel, dictGet, h1],
      by simp [configTemperature, dictGet, h2],
      by simp [configMaxTokens, dictGet, h3],
      by simp [build_message_system, dictGet, h4]⟩

/-- Witness for C8 at concrete configurations, including one with an
unknown key. -/
theorem C8_config_defaults_witness :
    configModel [("model", JVal.jstr "m1"), ("extra", JVal.jnull)] =
        JVal.jstr "m1" ∧
      configModel [] = JVal.jstr "gpt-4o-mini" ∧
      configTemperature [("temperature", JVal.jint 1)] = JVal.jint 1 ∧
      configTemperature [] = JVal.jnum (0.2 : ℚ) ∧
      configMaxTokens [("max_tokens", JVal.jint 100)] = JVal.jint 100 ∧
      configMaxTokens [] = JVal.jint 800 ∧
      build_message_system [("system_prompt", JVal.jstr "Be concise.")] =
        Message.mk Role.system (JVal.jstr "Be concise.") ∧
      build_message_system [] = Message.mk Role.system (JVal.jstr "") ∧
      (configModel [("model", JVal.jstr "m"), ("junk", JVal.jnull)] =
          configModel [("model", JVal.jstr "m")] ∧
        configTemperature [("model", JVal.jstr "m"), ("junk", JVal.jnull)] =
          configTemperature [("model", JVal.jstr "m")] ∧
        configMaxTokens [("model", JVal.jstr "m"), ("junk", JVal.jnull)] =
          configMaxTokens [("model", JVal.jstr "m")] ∧
        build_message_system
            [("model", JVal.jstr "m"), ("junk", JVal.jnull)] =
          build_message_system [("model", JVal.jstr "m")]) :=
  ⟨C8_config_defaults.1 [("model", JVal.jstr "m1"), ("extra", JVal.jnull)]
      (JVal.jstr "m1") rfl,
    C8_config_defaults.2.1 [] rfl,
    C8_config_defaults.2.2.1 [("temperature", JVal.jint 1)]
      (JVal.jint 1) rfl,
    C8_config_defaults.2.2.2.1 [] rfl,
    C8_config_defaults.2.2.2.2.1 [("max_tokens", JVal.jint 100)]
      (JVal.jint 100) rfl,
    C8_config_defaults.2.2.2.2.2.1 [] rfl,
    C8_config_defaults.2.2.2.2.2.2.1
      [("system_prompt", JVal.jstr "Be concise.")]
      (JVal.jstr "Be concise.") rfl,
    C8_config_defaults.2.2.2.2.2.2.2.1 [] rfl,
    C8_config_defaults.2.2.2.2.2.2.2.2
      [("model", JVal.jstr "m"), ("junk", JVal.jnull)]
      [("model", JVal.jstr "m")] rfl rfl rfl rfl⟩

/-- Claim C9: every log entry is appended to the log artifact, never
altering prior content and creating the artifact if absent, and consists
of a delimiter line `---`, a bold timestamp line in `YYYY-MM-DD HH:MM:SS`
format, a blank line, the entry body, and a trailing blank line. -/
theorem C9_log_entry_format (t : Tm) (entry : String) (old : Option String) :
    (∃ added, save_history (strftimeYmdHMS t) entry old =
      old.getD "" ++ added) ∧
    save_history (strftimeYmdHMS t) entry old =
      old.getD "" ++ ("---\n" ++ ("**" ++ strftimeYmdHMS t ++ "**") ++
        "\n" ++ "\n" ++ entry ++ "\n" ++ "\n") ∧
    (old = none → save_history (strftimeYmdHMS t) entry old =
      "---\n" ++ ("**" ++ strftimeYmdHMS t ++ "**") ++ "\n" ++ "\n" ++
        entry ++ "\n" ++ "\n") ∧
    tsFormatOk (strftimeYmdHMS t) = true := by
  refine ⟨⟨_, rfl⟩, rfl, ?_, ?_⟩
  · intro h
    subst h
    simp [save_history]
  · have hd : (strftimeYmdHMS t).data =
        [Nat.digitChar (t.year / 1000 % 10), Nat.digitChar (t.year / 100 % 10),
         Nat.digitChar (t.year / 10 % 10), Nat.digitChar (t.year % 10), '-',
         Nat.digitChar (t.month / 10 % 10), Nat.digitChar (t.month % 10), '-',
         Nat.digitChar (t.day / 10 % 10), Nat.digitChar (t.day % 10), ' ',
         Nat.digitChar (t.hour / 10 % 10), Nat.digitChar (t.hour % 10), ':',
         Nat.digitChar (t.minute / 10 % 10), Nat.digitChar (t.minute % 10),
         ':', Nat.digitChar (t.second / 10 % 10),
         Nat.digitChar (t.second % 10)] := rfl
    unfold tsFormatOk
    rw [hd]
    simp [digitChar_mod_isDigit]

/-- Witness for C9 at a concrete time, entry and absent log file. -/
theorem C9_log_entry_format_witness :
    save_history (strftimeYmdHMS (Tm.mk 2024 1 2 3 4 5)) "hello" none =
        "---\n" ++ ("**" ++ strftimeYmdHMS (Tm.mk 2024 1 2 3 4 5) ++ "**") ++
          "\n" ++ "\n" ++ "hello" ++ "\n" ++ "\n" ∧
      tsFormatOk (strftimeYmdHMS (Tm.mk 2024 1 2 3 4 5)) = true :=
  ⟨(C9_log_entry_format (Tm.mk 2024 1 2 3 4 5) "hello" none).2.2.1 rfl,
    (C9_log_entry_format (Tm.mk 2024 1 2 3 4 5) "hello" none).2.2.2⟩

/-- Claim C10: for every non-empty, non-exit input line, the user message
appended to the conversation state has as content the input line with
leading and trailing whitespace removed, and the same trimmed text is
echoed into the log entry; the raw untrimmed line is never stored. -/
theorem C10_user_message_trimmed (config : Config) (apiKey : Option String)
    (st : LoopState) (s : String) (raw : String) (w : Bool)
    (hne : pyStrip s ≠ "")
    (hex : pyLower (pyStrip s) ≠ "exit") (hq : pyLower (pyStrip s) ≠ "quit")
    (hkey : apiKey.getD "" ≠ "") :
    (step config apiKey st
        (InputEvent.line s (Except.ok raw) w)).state.messages =
      st.messages ++ [Message.mk Role.user (JVal.jstr (pyStrip s)),
        Message.mk Role.assistant (JVal.jstr (pyStrip raw))] ∧
    (w = true →
      (step config apiKey st
          (InputEvent.line s (Except.ok raw) w)).state.logs =
        st.logs ++ ["User: " ++ pyStrip s ++ "\n\nBot: " ++ pyStrip raw]) := by
  cases w <;>
    simp [step, hne, hex, hq, chat_with_openai, hkey, StepResult.state]

/-- Witness for C10 at a padded input line. -/
theorem C10_user_message_trimmed_witness :
    pyStrip " hi " ≠ "" ∧ pyLower (pyStrip " hi ") ≠ "exit" ∧
      pyLower (pyStrip " hi ") ≠ "quit" ∧
      (some "k" : Option String).getD "" ≠ "" ∧
      ((step [] (some "k") (initState [])
          (InputEvent.line " hi " (Except.ok " yo ") true)).state.messages =
        (initState []).messages ++
          [Message.mk Role.user (JVal.jstr (pyStrip " hi ")),
            Message.mk Role.assistant (JVal.jstr (pyStrip " yo "))] ∧
      (true = true →
        (step [] (some "k") (initState [])
            (InputEvent.line " hi " (Except.ok " yo ") true)).state.logs =
          (initState []).logs ++
            ["User: " ++ pyStrip " hi " ++ "\n\nBot: " ++ pyStrip " yo "])) :=
  ⟨by decide, by decide, by decide, by decide,
    C10_user_message_trimmed [] (some "k") (initState []) " hi " " yo "
      true (by decide) (by decide) (by decide) (by decide)⟩

end TheronRsqBot
